import Mathlib

/-!
Verification of `src/random_lumberjacks/visualization/visualization_functions.py`.

Shallow embedding of the `Multiplot` / `LinearityTest` classes and the
standalone `scale_units` helper.  Python integers and exact decimal inputs are
modelled as `Nat`/`Int`/`ℚ`; operations that can raise a Python exception are
modelled with `Except`.  Pandas container semantics (`Index.drop`,
`Index.append`, `Index.drop_duplicates`, `Series.quantile`, `iloc`) are
embedded following the pandas documentation for the behaviours the code relies
on.
-/

namespace VizFns

/-! ### Column-name sanitization (`re.sub('\W', "_", column)`) -/

/-- Word characters of the regular-expression class `\w` (ASCII model):
letters, digits and the underscore.  `\W` is the complement of this class. -/
def isWordChar (c : Char) : Bool := c.isAlphanum || c = '_'

/-- Action of `re.sub('\W', "_", ·)` on a single character. -/
def sanitizeChar (c : Char) : Char := if isWordChar c then c else '_'

/-- `re.sub('\W', "_", s)`: replace every non-word character by `_`.
Used by `LinearityTest._fix_col_names` and `LinearityTest.sb_linearity_test`. -/
def sanitize (s : String) : String := String.mk (s.data.map sanitizeChar)

/-! ### `scale_units` -/

/-- Python's `round` on an exact value: round half to even (banker's
rounding), as Python 3 `round` does. -/
def roundHalfEven (q : ℚ) : ℤ :=
  let f := ⌊q⌋
  if q - (f : ℚ) < 1 / 2 then f
  else if 1 / 2 < q - (f : ℚ) then f + 1
  else if f % 2 = 0 then f else f + 1

/-- Python's `round(q, 3)` on an exact value: round to 3 decimal places,
half to even. -/
def pyRound3 (q : ℚ) : ℚ := (roundHalfEven (q * 1000) : ℚ) / 1000

/-- Decimal rendering of a rational whose denominator divides 1000, matching
Python's `str` on such a float value: optional sign, integer part, a decimal
point, and 1 to 3 fractional digits with trailing zeros removed but at least
one digit kept (`str(0.5) = "0.5"`, `str(0.0) = "0.0"`). -/
def ratToDecimalString3 (q : ℚ) : String :=
  let sign := if q < 0 then "-" else ""
  let a := |q|
  let ipart := (⌊a⌋).toNat
  let m := (⌊(a - (ipart : ℚ)) * 1000⌋).toNat
  let d1 := m / 100
  let d2 := m / 10 % 10
  let d3 := m % 10
  let frac :=
    if d3 ≠ 0 then toString d1 ++ toString d2 ++ toString d3
    else if d2 ≠ 0 then toString d1 ++ toString d2
    else toString d1
  sign ++ toString ipart ++ "." ++ frac

/-- `scale_units(value)`: abbreviate a numeric value for display.  The numeric
input is modelled as an exact rational (every input exercised below is exactly
representable as a binary float, so Python's float arithmetic agrees with the
exact computation).  The final branch (`value ≥ 10^15`) returns `str(value)`
on a float; it is rendered here with the same decimal printer, which no claim
exercises. -/
def scale_units (value : ℚ) : String :=
  if value < 99 / 100 then ratToDecimalString3 (pyRound3 value)
  else if value < 1000 then toString (roundHalfEven value)
  else if value < 1000000 then toString (roundHalfEven (value / 1000)) ++ "k"
  else if value < 10 ^ 9 then toString (roundHalfEven (value / 10 ^ 6)) ++ "M"
  else if value < 10 ^ 12 then toString (roundHalfEven (value / 10 ^ 9)) ++ "B"
  else if value < 10 ^ 15 then toString (roundHalfEven (value / 10 ^ 12)) ++ "T"
  else ratToDecimalString3 value

/-! ### Grid-row computation (`Multiplot._set_rows`) -/

/-- `Multiplot._set_rows(n_plots)`: `if not n_plots: n_plots =
self.df.columns.size` followed by `self.n_rows = math.ceil(n_plots /
self.n_cols)`.  The Python default `n_plots=False` and an explicit `0` are
both falsy and are modelled by `nPlots = 0`; `math.ceil` of the true ratio is
`Int.ceil` over `ℚ`. -/
def set_rows (nPlots dfSize nCols : Nat) : Nat :=
  let n : Nat := if nPlots = 0 then dfSize else nPlots
  (⌈(n : ℚ) / (nCols : ℚ)⌉).toNat

/-- Ceiling of an exact natural-number ratio as natural division. -/
lemma ceil_natdiv (M C : Nat) (hC : 1 ≤ C) :
    ⌈(M : ℚ) / (C : ℚ)⌉ = (((M + C - 1) / C : Nat) : ℤ) := by
  have hC0 : 0 < C := hC
  have hCQ : (0 : ℚ) < (C : ℚ) := by exact_mod_cast hC0
  have hdm := Nat.div_add_mod (M + C - 1) C
  have hr : (M + C - 1) % C < C := Nat.mod_lt _ hC0
  have hcomm : ((M + C - 1) / C) * C = C * ((M + C - 1) / C) := Nat.mul_comm _ _
  have h1 : (((M + C - 1) / C : Nat) : ℚ) - 1 < (M : ℚ) / (C : ℚ) := by
    rw [lt_div_iff₀ hCQ, sub_mul, one_mul]
    have hkey : ((M + C - 1) / C) * C < M + C := by omega
    have hcast : (((M + C - 1) / C : Nat) : ℚ) * (C : ℚ) < (M : ℚ) + (C : ℚ) := by
      exact_mod_cast hkey
    linarith
  have h2 : (M : ℚ) / (C : ℚ) ≤ (((M + C - 1) / C : Nat) : ℚ) := by
    rw [div_le_iff₀ hCQ]
    have hkey : M ≤ ((M + C - 1) / C) * C := by omega
    exact_mod_cast hkey
  rw [Int.ceil_eq_iff]
  exact ⟨by exact_mod_cast h1, by exact_mod_cast h2⟩

/-- `_set_rows` computes the ceiling of `M / C` where `M` is the effective
plot count, as a natural division.  Workhorse for concrete evaluations. -/
lemma set_rows_natdiv (nPlots dfSize C : Nat) (hC : 1 ≤ C) :
    set_rows nPlots dfSize C =
      ((if nPlots = 0 then dfSize else nPlots) + C - 1) / C := by
  simp only [set_rows, ceil_natdiv _ C hC, Int.toNat_natCast]

/-- The `n_rows` value computed by `_set_rows` is nonnegative as an integer
ceiling, so the `Int.toNat` in the embedding is lossless. -/
lemma set_rows_cast (nPlots dfSize C : Nat) :
    ((set_rows nPlots dfSize C : Nat) : ℤ) =
      ⌈((if nPlots = 0 then dfSize else nPlots : Nat) : ℚ) / (C : ℚ)⌉ := by
  simp only [set_rows]
  exact Int.toNat_of_nonneg (Int.ceil_nonneg (by positivity))

/-! ### pandas `Index` operations used by `modify_col_list` -/

/-- Name of the Python exception raised by `pandas.Index.drop` when a label
is absent. -/
def keyError : String := "KeyError"

/-- `pandas.Index.drop(labels)` with the default `errors='raise'`: raises
`KeyError` if not all of the labels are found, otherwise removes every
occurrence of each label, keeping the order of the remaining entries. -/
def indexDrop (idx labels : List String) : Except String (List String) :=
  if labels.all (fun x => idx.contains x) then
    Except.ok (idx.filter (fun x => !(labels.contains x)))
  else Except.error keyError

/-- Helper for `pandas.Index.drop_duplicates`: keep the first occurrence of
each entry, where `seen` holds the entries already emitted. -/
def dropDupAux (seen : List String) : List String → List String
  | [] => []
  | x :: xs => if x ∈ seen then dropDupAux seen xs else x :: dropDupAux (x :: seen) xs

/-- `pandas.Index.drop_duplicates()` (default `keep='first'`): remove
duplicate entries, keeping the first occurrence of each. -/
def drop_duplicates (l : List String) : List String := dropDupAux [] l

/-- The `seen` accumulator after `dropDupAux` has consumed `l`. -/
def seenAfter (seen : List String) : List String → List String
  | [] => seen
  | x :: xs => if x ∈ seen then seenAfter seen xs else seenAfter (x :: seen) xs

/-! ### The dataframe and the `Multiplot` instance state -/

/-- A pandas dataframe as the code observes it: an ordered list of column
names together with the per-column values (the row index for the
Goldfeld-Quandt computation is modelled separately). -/
structure DataFrame where
  cols : List String
  cells : List (List ℚ)
deriving DecidableEq, Repr

/-- `LinearityTest._fix_col_names`: builds `{column: re.sub('\W', "_",
column) for column in self.df.columns}` and renames the dataframe in place
with it; every column name is sent through `sanitize`, and pandas keeps
duplicate resulting labels side by side. -/
def DataFrame.fix_col_names (df : DataFrame) : DataFrame :=
  { df with cols := df.cols.map sanitize }

/-- The mutable attributes of a `Multiplot` (and `LinearityTest`) instance
that the claims observe: the private dataframe copy, the active column
`Index`, the grid shape, and the column cursor.  The transient plotting
attributes (`fig`, `axes`, `ax_i`, `last_ax`) live only inside a single
rendering pass and are not part of the persistent state. -/
structure Multiplot where
  df : DataFrame
  columns : List String
  n_cols : Nat
  n_rows : Nat
  last_col : Option String
deriving DecidableEq, Repr

/-- `Multiplot._set_rows` as a state update. -/
def Multiplot.set_rows_state (m : Multiplot) (nPlots : Nat) : Multiplot :=
  { m with n_rows := set_rows nPlots m.df.cols.length m.n_cols }

/-- `Multiplot.set_cols(n_cols)`: store the new column count and recompute
the rows from the full dataframe column count. -/
def Multiplot.set_cols (m : Multiplot) (nCols : Nat) : Multiplot :=
  Multiplot.set_rows_state { m with n_cols := nCols } 0

/-- `Multiplot.__init__(df, n_cols, ...)`: take a private copy of the
dataframe, make every dataframe column active, and derive the grid shape. -/
def Multiplot.init (df : DataFrame) (nCols : Nat) : Multiplot :=
  Multiplot.set_cols
    { df := df, columns := df.cols, n_cols := nCols, n_rows := 0, last_col := none }
    nCols

/-- `Multiplot.modify_col_list(columns, drop)`: in drop mode delegate to
`Index.drop` (whose `KeyError` propagates before any attribute is
reassigned); in add mode append and de-duplicate.  Both modes recompute
the rows from the full dataframe column count. -/
def Multiplot.modify_col_list (m : Multiplot) (cols : List String) (drop : Bool) :
    Except String Multiplot :=
  if drop then
    match indexDrop m.columns cols with
    | Except.ok newCols => Except.ok (Multiplot.set_rows_state { m with columns := newCols } 0)
    | Except.error e => Except.error e
  else
    Except.ok
      (Multiplot.set_rows_state
        { m with columns := drop_duplicates (m.columns ++ cols) } 0)

/-! ### `LinearityTest` -/

/-- `LinearityTest.linearity_plots`: the OLS diagnostic grid holds 5 plots. -/
def linearity_plots : Nat := 5

/-- `LinearityTest.logistic_plots`: the logistic diagnostic grid holds 2
plots. -/
def logistic_plots : Nat := 2

/-- `LinearityTest.__init__`: run the `Multiplot` constructor, then sanitize
the column names of the private dataframe copy in place.  As in the source,
`self.columns` was captured before the rename and keeps the original names. -/
def LinearityTest.init (df : DataFrame) (nCols : Nat) : Multiplot :=
  let m := Multiplot.init df nCols
  { m with df := m.df.fix_col_names }

/-- `LinearityTest.sb_linearity_test(column, target, logistic)` as a state
update: sanitize the requested names, remember the explanatory column, set
the grid rows from the fixed diagnostic plot count, fit and report (read-only
for the grid configuration and the dataframe), render the plots, and finally
reset the rows to the instance default.  Model of a completed call (no
exception escaped from the fitting library). -/
def LinearityTest.sb_linearity_test (m : Multiplot) (column target : String)
    (logistic : Bool) : Multiplot :=
  let column := sanitize column
  let _target := sanitize target
  let m := { m with last_col := some column }
  let m := Multiplot.set_rows_state m (if logistic then logistic_plots else linearity_plots)
  Multiplot.set_rows_state m 0

/-! ### `Multiplot._determine_ax` -/

/-- How `_determine_ax` indexes the `axes` object returned by the plotting
library: either linearly (`self.axes[i]`) or by grid cell
(`self.axes[r][c]`). -/
inductive AxSel where
  | linear (i : Nat)
  | cell (r c : Nat)
deriving DecidableEq, Repr

/-- `Multiplot._determine_ax`: `row, col = ax_i // n_cols, ax_i % n_cols`,
then select `axes[row]` when `n_cols == 1`, `axes[col]` when `n_rows == 1`,
and `axes[row][col]` otherwise. -/
def determine_ax (axI nCols nRows : Nat) : AxSel :=
  let row := axI / nCols
  let col := axI % nCols
  if nCols = 1 then AxSel.linear row
  else if nRows = 1 then AxSel.linear col
  else AxSel.cell row col

/-! ### `LinearityTest._test_goldfeld_quandt` row selection -/

/-- Insert a rational into a sorted list. -/
def insertRat (x : ℚ) : List ℚ → List ℚ
  | [] => [x]
  | y :: ys => if x ≤ y then x :: y :: ys else y :: insertRat x ys

/-- Sort a list of rationals (insertion sort). -/
def sortRat (l : List ℚ) : List ℚ := l.foldr insertRat []

/-- `pandas.Series.quantile(q)` with the default linear interpolation: for
sorted values `v_0 ≤ … ≤ v_(n-1)` and position `h = q·(n-1)`, interpolate
between `v_⌊h⌋` and the next value. -/
def seriesQuantileLinear (vals : List ℚ) (q : ℚ) : ℚ :=
  let sorted := sortRat vals
  let n := sorted.length
  if n = 0 then 0
  else
    let pos := q * ((n : ℚ) - 1)
    let f := (⌊pos⌋).toNat
    let vf := sorted.getD f 0
    let vc := sorted.getD (min (f + 1) (n - 1)) 0
    vf + (pos - (f : ℚ)) * (vc - vf)

/-- The `idx` list built by `_test_goldfeld_quandt`: the index labels of the
rows whose explanatory value is outside the closed `[lwr, upr]` quantile
band, each shifted down by one (`[x - 1 for x in self.df.index if x not in
middle_idx]`).  `index` and `vals` are the dataframe's row labels and the
explanatory column's values, in row order. -/
def gqIdx (index : List ℤ) (vals : List ℚ) (lq uq : ℚ) : List ℤ :=
  let lwr := seriesQuantileLinear vals lq
  let upr := seriesQuantileLinear vals uq
  let middle :=
    ((index.zip vals).filter
      (fun p => decide (lwr ≤ p.2) && decide (p.2 ≤ upr))).map Prod.fst
  (index.filter (fun x => !(middle.contains x))).map (fun x => x - 1)

/-- Positional (`iloc` / NumPy) resolution of a possibly negative integer
position against `n` rows: negative positions count from the end. -/
def ilocResolve (n : Nat) (i : ℤ) : ℤ := if 0 ≤ i then i else (n : ℤ) + i

/-- The row positions whose residuals and design-matrix rows
`_test_goldfeld_quandt` actually feeds to the Goldfeld-Quandt test:
`model.resid.iloc[idx]` and `model.model.exog[idx]` resolve the shifted
labels positionally. -/
def gqUsedRows (index : List ℤ) (vals : List ℚ) (lq uq : ℚ) : List ℤ :=
  (gqIdx index vals lq uq).map (ilocResolve vals.length)

/-- The row positions the specification describes: exactly the rows whose
explanatory value is strictly below the lower quantile or strictly above the
upper quantile. -/
def gqClaimedRows (vals : List ℚ) (lq uq : ℚ) : List ℤ :=
  let lwr := seriesQuantileLinear vals lq
  let upr := seriesQuantileLinear vals uq
  ((List.range vals.length).filter
    (fun p => decide (vals.getD p 0 < lwr) || decide (upr < vals.getD p 0))).map
    (fun p => (p : ℤ))

/-! ### Heap model for dataframe ownership (`df.copy()` at construction)

Python dataframes are mutable objects shared by reference; `rename(...,
inplace=True)` mutates the receiver.  To state that the caller's dataframe is
never mutated, dataframe objects live in an explicit heap (a list of
dataframe values) and the instance holds a reference (an index) into it. -/

/-- Read a dataframe object from the heap. -/
def heapGet (h : List DataFrame) (r : Nat) : DataFrame := h.getD r ⟨[], []⟩

/-- The instance state when the dataframe is held by reference. -/
structure LTRef where
  dfRef : Nat
  columns : List String
  n_cols : Nat
  n_rows : Nat
  last_col : Option String
deriving DecidableEq, Repr

/-- `Multiplot.__init__` against the heap: `self.df = df.copy()` allocates a
fresh object holding a (deep) copy of the caller's dataframe; all other
attributes are derived from the copy. -/
def multiplotConstructH (h : List DataFrame) (caller nCols : Nat) :
    List DataFrame × LTRef :=
  let copied := heapGet h caller
  (h ++ [copied],
   { dfRef := h.length
     columns := copied.cols
     n_cols := nCols
     n_rows := set_rows 0 copied.cols.length nCols
     last_col := none })

/-- `LinearityTest._fix_col_names` against the heap: the in-place rename
writes to the instance's own dataframe object. -/
def fixColNamesH (h : List DataFrame) (inst : LTRef) : List DataFrame :=
  h.set inst.dfRef (DataFrame.fix_col_names (heapGet h inst.dfRef))

/-- `LinearityTest.__init__` against the heap: construct, then rename the
private copy in place. -/
def linearityTestConstructH (h : List DataFrame) (caller nCols : Nat) :
    List DataFrame × LTRef :=
  let s := multiplotConstructH h caller nCols
  (fixColNamesH s.1 s.2, s.2)

/-- The dataframe `_predictions_logit` builds for a logistic diagnostic: a
fresh object combining predictions, actuals and the explanatory column; its
in-place `rename` touches only this fresh object. -/
def predictionFrame (_df : DataFrame) (column target : String) : DataFrame :=
  ⟨[target, "actual", column], []⟩

/-- The public operations an instance can run after construction. -/
inductive LTOp where
  | setCols (n : Nat)
  | modifyColList (cols : List String) (drop : Bool)
  | sbLinearityTest (column target : String) (logistic : Bool)

/-- One public operation against the heap.  `set_cols` and `modify_col_list`
only touch instance attributes (a raised `KeyError` aborts before any
assignment, leaving both heap and instance unchanged).  `sb_linearity_test`
reads the instance's dataframe, allocates a fresh prediction frame in the
logistic case, and updates the grid attributes; it never writes to an
existing heap object. -/
def stepH (s : List DataFrame × LTRef) (op : LTOp) : List DataFrame × LTRef :=
  match op with
  | LTOp.setCols n =>
      (s.1, { s.2 with
              n_cols := n
              n_rows := set_rows 0 (heapGet s.1 s.2.dfRef).cols.length n })
  | LTOp.modifyColList cols drop =>
      if drop then
        match indexDrop s.2.columns cols with
        | Except.ok newCols =>
            (s.1, { s.2 with
                    columns := newCols
                    n_rows := set_rows 0 (heapGet s.1 s.2.dfRef).cols.length s.2.n_cols })
        | Except.error _ => s
      else
        (s.1, { s.2 with
                columns := drop_duplicates (s.2.columns ++ cols)
                n_rows := set_rows 0 (heapGet s.1 s.2.dfRef).cols.length s.2.n_cols })
  | LTOp.sbLinearityTest c t logistic =>
      ((if logistic then
          s.1 ++ [predictionFrame (heapGet s.1 s.2.dfRef) (sanitize c) (sanitize t)]
        else s.1),
       { s.2 with
         last_col := some (sanitize c)
         n_rows := set_rows 0 (heapGet s.1 s.2.dfRef).cols.length s.2.n_cols })

/-- Run a sequence of public operations. -/
def runOpsH (s : List DataFrame × LTRef) (ops : List LTOp) : List DataFrame × LTRef :=
  ops.foldl stepH s

end VizFns

namespace VizFns

/-! ### Lemmas about sanitization -/

/-- The replacement character `_` is itself a word character, so the
per-character substitution is idempotent. -/
lemma sanitizeChar_idem (c : Char) : sanitizeChar (sanitizeChar c) = sanitizeChar c := by
  have h2 : isWordChar '_' = true := rfl
  by_cases h : isWordChar c = true
  · simp [sanitizeChar, h]
  · simp [sanitizeChar, h, h2]

/-- The character data of a sanitized string. -/
lemma sanitize_data (s : String) : (sanitize s).data = s.data.map sanitizeChar := rfl

/-! ### Lemmas about `drop_duplicates` -/

/-- `dropDupAux` distributes over append, with the accumulator advanced by
the first block. -/
lemma dropDupAux_append (seen l m : List String) :
    dropDupAux seen (l ++ m) = dropDupAux seen l ++ dropDupAux (seenAfter seen l) m := by
  induction l generalizing seen with
  | nil => rfl
  | cons x xs ih =>
      by_cases hx : x ∈ seen
      · simpa [dropDupAux, seenAfter, hx] using ih seen
      · simpa [dropDupAux, seenAfter, hx] using ih (x :: seen)

/-- A duplicate-free block disjoint from the accumulator passes through
`dropDupAux` unchanged. -/
lemma dropDupAux_eq_self (l : List String) :
    ∀ seen, l.Nodup → (∀ x ∈ l, x ∉ seen) → dropDupAux seen l = l := by
  induction l with
  | nil => intro seen _ _; rfl
  | cons x xs ih =>
      intro seen hn hd
      have hx : x ∉ seen := hd x (List.mem_cons_self x xs)
      rw [List.nodup_cons] at hn
      rw [dropDupAux, if_neg hx]
      congr 1
      exact ih (x :: seen) hn.2 (fun y hy => by
        simp only [List.mem_cons, not_or]
        exact ⟨fun hyx => hn.1 (hyx ▸ hy), hd y (List.mem_cons_of_mem x hy)⟩)

/-- Membership in the advanced accumulator. -/
lemma mem_seenAfter (y : String) (seen l : List String) :
    y ∈ seenAfter seen l ↔ y ∈ seen ∨ y ∈ l := by
  induction l generalizing seen with
  | nil => simp [seenAfter]
  | cons x xs ih =>
      by_cases hx : x ∈ seen
      · rw [seenAfter, if_pos hx, ih]
        constructor
        · rintro (h | h)
          · exact Or.inl h
          · exact Or.inr (List.mem_cons_of_mem x h)
        · rintro (h | h)
          · exact Or.inl h
          · rcases List.mem_cons.mp h with h | h
            · exact Or.inl (h ▸ hx)
            · exact Or.inr h
      · rw [seenAfter, if_neg hx, ih]
        simp only [List.mem_cons]
        tauto

/-- `dropDupAux` only depends on the membership of its accumulator. -/
lemma dropDupAux_congr (seen₁ seen₂ m : List String)
    (h : ∀ y, y ∈ seen₁ ↔ y ∈ seen₂) : dropDupAux seen₁ m = dropDupAux seen₂ m := by
  induction m generalizing seen₁ seen₂ with
  | nil => rfl
  | cons x xs ih =>
      by_cases hx : x ∈ seen₁
      · rw [dropDupAux, if_pos hx, dropDupAux, if_pos ((h x).mp hx)]
        exact ih _ _ h
      · rw [dropDupAux, if_neg hx, dropDupAux, if_neg (fun hx₂ => hx ((h x).mpr hx₂))]
        congr 1
        exact ih _ _ (fun y => by simp only [List.mem_cons]; rw [h y])

/-- `Index.append` followed by `Index.drop_duplicates` on a duplicate-free
active set: the existing entries stay in place, the genuinely new entries are
appended in first-seen order. -/
lemma drop_duplicates_append (active cols : List String) (hnd : active.Nodup) :
    drop_duplicates (active ++ cols) = active ++ dropDupAux active cols := by
  rw [drop_duplicates, dropDupAux_append]
  congr 1
  · exact dropDupAux_eq_self active [] hnd (by simp)
  · exact dropDupAux_congr _ _ _ (fun y => by rw [mem_seenAfter]; simp)

end VizFns

namespace VizFns

/-! ### Claim C2 -/

/-- C2 counterexample: `scale_units(2_500_000)` divides by `10^6` giving
exactly `2.5`, and Python's `round` rounds half to even, so `round(2.5) = 2`
and the function returns `"2M"`, not `"3M"` as claimed. -/
theorem scale_units_2500000_cex :
    scale_units 2500000 = "2M" ∧ ("2M" : String) ≠ "3M" := by
  constructor
  · rw [scale_units]
    norm_num [roundHalfEven]
    decide
  · decide

/-- C2 (amended): `scale_units` returns `"950"` for `950`, `"2k"` for
`1500` (`round(1.5) = 2`, half to even), `"2M"` for `2_500_000`
(`round(2.5) = 2`, half to even), and `"0.5"` for `0.5`. -/
theorem scale_units_examples :
    scale_units 950 = "950" ∧ scale_units 1500 = "2k" ∧
    scale_units 2500000 = "2M" ∧ scale_units (1 / 2) = "0.5" := by
  refine ⟨?_, ?_, ?_, ?_⟩
  · rw [scale_units]; norm_num [roundHalfEven]; decide
  · rw [scale_units]; norm_num [roundHalfEven]; decide
  · rw [scale_units]; norm_num [roundHalfEven]; decide
  · rw [scale_units]
    norm_num [ratToDecimalString3, pyRound3, roundHalfEven, abs]
    decide

/-! ### Claim C5 -/

/-- C5: the column-name sanitization `re.sub('\W', "_", ·)` is idempotent,
preserves the length of the name, leaves every word character in place, and
replaces every non-word character by an underscore. -/
theorem sanitize_idempotent_pointwise (s : String) (i : Nat)
    (hi : i < s.data.length) :
    sanitize (sanitize s) = sanitize s ∧
    (sanitize s).data.length = s.data.length ∧
    (isWordChar (s.data.getD i 'a') = true →
      (sanitize s).data.getD i 'a' = s.data.getD i 'a') ∧
    (isWordChar (s.data.getD i 'a') = false →
      (sanitize s).data.getD i 'a' = '_') := by
  have hmap : (sanitize s).data.getD i 'a' = sanitizeChar (s.data.getD i 'a') := by
    show (s.data.map sanitizeChar).getD i (sanitizeChar 'a') = sanitizeChar (s.data.getD i 'a')
    rw [List.getD_map]
  refine ⟨?_, ?_, ?_, ?_⟩
  · show String.mk ((sanitize s).data.map sanitizeChar) = sanitize s
    rw [sanitize_data, List.map_map]
    congr 1
    exact List.map_congr_left (fun c _ => sanitizeChar_idem c)
  · rw [sanitize_data, List.length_map]
  · intro hw
    rw [hmap, sanitizeChar, if_pos hw]
  · intro hw
    rw [hmap, sanitizeChar, if_neg (by rw [hw]; exact Bool.false_ne_true)]

/-- C5 witness: the theorem instantiated at the name `"a b"` and index 1
(the space, a non-word character, which is replaced by an underscore). -/
theorem sanitize_idempotent_pointwise_witness :
    sanitize (sanitize "a b") = sanitize "a b" ∧
    (sanitize "a b").data.length = ("a b" : String).data.length ∧
    (isWordChar (("a b" : String).data.getD 1 'a') = true →
      (sanitize "a b").data.getD 1 'a' = ("a b" : String).data.getD 1 'a') ∧
    (isWordChar (("a b" : String).data.getD 1 'a') = false →
      (sanitize "a b").data.getD 1 'a' = '_') :=
  sanitize_idempotent_pointwise "a b" 1 (by decide)

/-! ### Claim C10 -/

/-- C10: sanitization is not injective: the distinct names `"a b"` and
`"a-b"` collide on `"a_b"`, and `_fix_col_names` maps a dataframe whose
column names differ only in non-word characters to duplicate labels. -/
theorem sanitize_not_injective_collision :
    ("a b" : String) ≠ "a-b" ∧ sanitize "a b" = sanitize "a-b" ∧
    DataFrame.fix_col_names ⟨["a b", "a-b"], []⟩ = ⟨["a_b", "a_b"], []⟩ := by
  refine ⟨by decide, ?_, ?_⟩
  · decide
  · show DataFrame.mk (["a b", "a-b"].map sanitize) [] = DataFrame.mk ["a_b", "a_b"] []
    decide

/-! ### Claim C6 -/

/-- C6: `modify_col_list` in add mode is idempotent on a duplicate-free
active set — adding an already-present name returns the active set with the
same elements in the same order — and in general the added names are
appended after the existing ones with duplicates (and already-present names)
removed, preserving first-seen order. -/
theorem modify_col_list_add_idempotent_append (m : Multiplot)
    (cols : List String) (name : String) (hnd : m.columns.Nodup)
    (hmem : name ∈ m.columns) :
    (m.modify_col_list [name] false).map Multiplot.columns =
      Except.ok m.columns ∧
    (m.modify_col_list cols false).map Multiplot.columns =
      Except.ok (m.columns ++ dropDupAux m.columns cols) := by
  constructor
  · simp only [Multiplot.modify_col_list, Bool.false_eq_true, if_false,
      Multiplot.set_rows_state, Except.map]
    rw [drop_duplicates_append _ _ hnd]
    rw [show dropDupAux m.columns [name] = [] from by rw [dropDupAux, if_pos hmem]; rfl]
    simp
  · simp only [Multiplot.modify_col_list, Bool.false_eq_true, if_false,
      Multiplot.set_rows_state, Except.map]
    rw [drop_duplicates_append _ _ hnd]

/-- C6 witness: adding the already-present `"b"` to the active set
`["a", "b"]` leaves it unchanged; adding `["c", "b", "c"]` appends only the
fresh name `"c"` once. -/
theorem modify_col_list_add_idempotent_append_witness :
    ((Multiplot.mk ⟨["a", "b"], []⟩ ["a", "b"] 3 1 none).modify_col_list
        ["b"] false).map Multiplot.columns = Except.ok ["a", "b"] ∧
    ((Multiplot.mk ⟨["a", "b"], []⟩ ["a", "b"] 3 1 none).modify_col_list
        ["c", "b", "c"] false).map Multiplot.columns =
      Except.ok (["a", "b"] ++ dropDupAux ["a", "b"] ["c", "b", "c"]) :=
  modify_col_list_add_idempotent_append
    (Multiplot.mk ⟨["a", "b"], []⟩ ["a", "b"] 3 1 none)
    ["c", "b", "c"] "b" (by decide) (by decide)

end VizFns

namespace VizFns

/-- With a single plot column the default row count is the full dataframe
column count. -/
lemma set_rows_one_col (M : Nat) : set_rows 0 M 1 = M := by
  rw [set_rows_natdiv 0 M 1 (by norm_num)]
  simp

/-! ### Claim C7 -/

/-- C7: during a rendering pass over `N` active columns (a subset of the `M`
dataframe columns from which the grid rows were derived), `_determine_ax`
selects cell `(i div n_cols, i mod n_cols)` when the grid has more than one
row and more than one column, indexes linearly by the row `i div n_cols`
when the grid has a single column, and linearly by the column `i mod n_cols`
when the grid has a single row. -/
theorem determine_ax_grid_cells (i N M C R : Nat) (hC : 1 ≤ C) (hi : i < N)
    (hNM : N ≤ M) (hR : R = set_rows 0 M C) :
    (1 < R ∧ 1 < C → determine_ax i C R = AxSel.cell (i / C) (i % C)) ∧
    (C = 1 → determine_ax i C R = AxSel.linear (i / C)) ∧
    (R = 1 → determine_ax i C R = AxSel.linear (i % C)) := by
  refine ⟨?_, ?_, ?_⟩
  · rintro ⟨hr1, hc1⟩
    rw [determine_ax, if_neg (by omega), if_neg (by omega)]
  · intro hc
    rw [determine_ax, if_pos hc]
  · intro hr
    by_cases hc : C = 1
    · subst hc
      have hM : M = 1 := by
        rw [hr, set_rows_one_col] at hR
        omega
      have hi0 : i = 0 := by omega
      subst hi0
      rw [determine_ax, if_pos rfl]
    · rw [determine_ax, if_neg hc, if_pos hr]

/-- C7 witness: the fifth chart (index 4) of a 5-column pass on a 3-wide
grid lands in cell (1, 1); degenerate one-column and one-row grids index
linearly. -/
theorem determine_ax_grid_cells_witness :
    (1 < set_rows 0 5 3 ∧ 1 < 3 →
      determine_ax 4 3 (set_rows 0 5 3) = AxSel.cell (4 / 3) (4 % 3)) ∧
    ((3 : Nat) = 1 → determine_ax 4 3 (set_rows 0 5 3) = AxSel.linear (4 / 3)) ∧
    (set_rows 0 5 3 = 1 → determine_ax 4 3 (set_rows 0 5 3) = AxSel.linear (4 % 3)) :=
  determine_ax_grid_cells 4 5 5 3 (set_rows 0 5 3) (by norm_num) (by norm_num)
    (by norm_num) rfl

/-! ### Claim C1 -/

/-- C1 (amended): the row count computed by `_set_rows` is the ceiling of
`M / C` and satisfies `R·C ≥ M`, where `M` is the plot count `_set_rows`
actually receives — the explicit diagnostic plot count when one is given,
else the full dataframe column count (`self.df.columns.size`), which equals
the active item count only while no column has been dropped or added. -/
theorem set_rows_ceil_of_requested (nPlots dfSize C M : Nat) (hC : 1 ≤ C)
    (hM : M = if nPlots = 0 then dfSize else nPlots) :
    ((set_rows nPlots dfSize C : Nat) : ℤ) = ⌈(M : ℚ) / (C : ℚ)⌉ ∧
    M ≤ set_rows nPlots dfSize C * C := by
  subst hM
  constructor
  · exact set_rows_cast nPlots dfSize C
  · rw [set_rows_natdiv nPlots dfSize C hC]
    set M := if nPlots = 0 then dfSize else nPlots with hMdef
    have hdm := Nat.div_add_mod (M + C - 1) C
    have hr : (M + C - 1) % C < C := Nat.mod_lt _ hC
    have hcomm : ((M + C - 1) / C) * C = C * ((M + C - 1) / C) := Nat.mul_comm _ _
    omega

/-- C1 witness: seven dataframe columns on a 3-wide grid need ⌈7/3⌉ = 3
rows, and 3·3 ≥ 7. -/
theorem set_rows_ceil_of_requested_witness :
    ((set_rows 0 7 3 : Nat) : ℤ) = ⌈(7 : ℚ) / (3 : ℚ)⌉ ∧
    7 ≤ set_rows 0 7 3 * 3 :=
  set_rows_ceil_of_requested 0 7 3 7 (by norm_num) rfl

/-- C1 counterexample: start from a four-column dataframe with `n_cols = 3`
and drop three columns.  The active set the grid must now hold has one item,
but `_set_rows` recomputes from the full dataframe column count, leaving
`n_rows = ⌈4/3⌉ = 2 ≠ ⌈1/3⌉ = 1`, so `R = ceil(N / C)` fails for the item
count `N` the grid must hold. -/
theorem set_rows_after_drop_cex :
    (Multiplot.modify_col_list (Multiplot.init ⟨["a", "b", "c", "d"], []⟩ 3)
        ["a", "b", "c"] true).map (fun m => (m.columns.length, m.n_rows)) =
      Except.ok (1, 2) ∧
    ⌈(1 : ℚ) / (3 : ℚ)⌉ = 1 ∧ (2 : ℤ) ≠ 1 := by
  have h3 : ∀ nP dS, set_rows nP dS 3 = ((if nP = 0 then dS else nP) + 3 - 1) / 3 :=
    fun nP dS => set_rows_natdiv nP dS 3 (by norm_num)
  refine ⟨?_, ?_, by decide⟩
  · simp only [Multiplot.init, Multiplot.set_cols, Multiplot.set_rows_state,
      Multiplot.modify_col_list, indexDrop, h3]
    rfl
  · rw [Int.ceil_eq_iff]
    norm_num

/-! ### Claim C3 -/

/-- C3 counterexample: dropping the absent name `"z"` from the active set
`["a", "b"]` is not a silent no-op — `Index.drop` (default
`errors='raise'`) raises `KeyError`, which propagates out of
`modify_col_list`. -/
theorem modify_col_list_drop_absent_cex :
    (Multiplot.init ⟨["a", "b"], []⟩ 3).modify_col_list ["z"] true =
      Except.error keyError := by
  have h3 : ∀ nP dS, set_rows nP dS 3 = ((if nP = 0 then dS else nP) + 3 - 1) / 3 :=
    fun nP dS => set_rows_natdiv nP dS 3 (by norm_num)
  simp only [Multiplot.init, Multiplot.set_cols, Multiplot.set_rows_state,
    Multiplot.modify_col_list, indexDrop, h3]
  rfl

/-- C3 (amended): for every active column set and every name not present in
it, `modify_col_list` in drop mode raises `KeyError` (from `Index.drop` with
its default `errors='raise'`); the exception propagates before any attribute
is reassigned, so the active column set is left unchanged. -/
theorem modify_col_list_drop_absent_raises (m : Multiplot) (name : String)
    (h : name ∉ m.columns) :
    m.modify_col_list [name] true = Except.error keyError := by
  have hc : m.columns.contains name = false := by
    by_contra hcc
    exact h (List.elem_iff.mp (Bool.of_not_eq_false hcc))
  have hall : ([name].all fun x => m.columns.contains x) = false := by
    simp only [List.all_cons, List.all_nil, Bool.and_true, hc]
  rw [Multiplot.modify_col_list, if_pos rfl, indexDrop,
    if_neg (by rw [hall]; exact Bool.false_ne_true)]

/-- C3 witness: dropping the absent `"q"` from the one-element active set
`["p"]` raises `KeyError`. -/
theorem modify_col_list_drop_absent_raises_witness :
    (Multiplot.mk ⟨["p"], []⟩ ["p"] 2 1 none).modify_col_list ["q"] true =
      Except.error keyError :=
  modify_col_list_drop_absent_raises
    (Multiplot.mk ⟨["p"], []⟩ ["p"] 2 1 none) "q" (by decide)

end VizFns

namespace VizFns

/-! ### Claim C8 -/

/-- C8: after a completed `sb_linearity_test` call (OLS or logistic), the
final `self._set_rows()` restores `n_rows` to the instance default
`⌈dataframe column count / n_cols⌉`, even though the call temporarily set
the rows from the fixed diagnostic plot count; `n_cols` and the dataframe
are unchanged by the call. -/
theorem sb_linearity_test_restores_grid (m : Multiplot) (column target : String)
    (logistic : Bool) :
    ((LinearityTest.sb_linearity_test m column target logistic).n_rows : ℤ) =
      ⌈(m.df.cols.length : ℚ) / (m.n_cols : ℚ)⌉ ∧
    (LinearityTest.sb_linearity_test m column target logistic).n_cols = m.n_cols ∧
    (LinearityTest.sb_linearity_test m column target logistic).df = m.df := by
  refine ⟨?_, rfl, rfl⟩
  show ((set_rows 0 m.df.cols.length m.n_cols : Nat) : ℤ) = _
  rw [set_rows_cast 0 m.df.cols.length m.n_cols, if_pos rfl]

/-! ### Claim C4 -/

/-- C4: the Goldfeld-Quandt computation does not use exactly the rows
strictly outside the 45th/55th percentile band.  With the pandas default
integer index `0..10` and explanatory values `0,10,…,100`, the quantile
thresholds are 45 and 55 and the middle band is the single row with value 50
(label 5).  The code turns the non-middle labels into positions by
subtracting one and slicing `model.resid.iloc[idx]` / `model.model.exog[idx]`
positionally, so it uses rows `[10,0,1,2,3,5,6,7,8,9]` — including the
middle-band row at position 5 (from label 6) and the last row (from label 0
via position −1), and omitting row 4 — whereas the rows the claim (and the
test's purpose) selects are `[0,1,2,3,4,6,7,8,9,10]`. -/
theorem goldfeld_quandt_row_selection :
    gqUsedRows [0, 1, 2, 3, 4, 5, 6, 7, 8, 9, 10]
        [0, 10, 20, 30, 40, 50, 60, 70, 80, 90, 100] (45 / 100) (55 / 100) =
      [10, 0, 1, 2, 3, 5, 6, 7, 8, 9] ∧
    gqClaimedRows [0, 10, 20, 30, 40, 50, 60, 70, 80, 90, 100]
        (45 / 100) (55 / 100) = [0, 1, 2, 3, 4, 6, 7, 8, 9, 10] ∧
    (5 : ℤ) ∈ gqUsedRows [0, 1, 2, 3, 4, 5, 6, 7, 8, 9, 10]
        [0, 10, 20, 30, 40, 50, 60, 70, 80, 90, 100] (45 / 100) (55 / 100) ∧
    (5 : ℤ) ∉ gqClaimedRows [0, 10, 20, 30, 40, 50, 60, 70, 80, 90, 100]
        (45 / 100) (55 / 100) := by
  have h45 : seriesQuantileLinear [0, 10, 20, 30, 40, 50, 60, 70, 80, 90, 100]
      (45 / 100) = 45 := by
    norm_num [seriesQuantileLinear, sortRat, insertRat]
    norm_num [show Int.toNat 4 = 4 from rfl]
  have h55 : seriesQuantileLinear [0, 10, 20, 30, 40, 50, 60, 70, 80, 90, 100]
      (55 / 100) = 55 := by
    norm_num [seriesQuantileLinear, sortRat, insertRat]
    norm_num [show Int.toNat 5 = 5 from rfl]
  refine ⟨?_, ?_, ?_, ?_⟩
  · simp only [gqUsedRows, gqIdx, h45, h55]
    decide
  · simp only [gqClaimedRows, h45, h55]
    decide
  · simp only [gqUsedRows, gqIdx, h45, h55]
    decide
  · simp only [gqClaimedRows, h45, h55]
    decide

end VizFns

namespace VizFns

/-- Reading below the length of the first block ignores an appended block. -/
lemma heapGet_append (h ext : List DataFrame) (r : Nat) (hr : r < h.length) :
    heapGet (h ++ ext) r = heapGet h r :=
  List.getD_append h ext _ r hr

/-- Writing one heap slot leaves every other slot unchanged. -/
lemma heapGet_set_ne (h : List DataFrame) (i r : Nat) (df : DataFrame)
    (hir : i ≠ r) : heapGet (h.set i df) r = heapGet h r := by
  rw [heapGet, heapGet, List.getD_eq_getD_get?, List.getD_eq_getD_get?,
    List.get?_set_ne _ _ hir]

/-- Every public operation leaves the existing heap objects in place: it can
only append fresh objects. -/
lemma stepH_heap_extends (s : List DataFrame × LTRef) (op : LTOp) :
    ∃ ext, (stepH s op).1 = s.1 ++ ext := by
  cases op with
  | setCols n => exact ⟨[], (List.append_nil _).symm⟩
  | modifyColList cols drop =>
      cases drop with
      | false => exact ⟨[], (List.append_nil _).symm⟩
      | true =>
          cases hid : indexDrop s.2.columns cols with
          | ok newCols => exact ⟨[], by simp [stepH, hid]⟩
          | error e => exact ⟨[], by simp [stepH, hid]⟩
  | sbLinearityTest c t logistic =>
      cases logistic with
      | false => exact ⟨[], (List.append_nil _).symm⟩
      | true => exact ⟨_, rfl⟩

/-- Across any sequence of public operations the heap only grows by
appending. -/
lemma runOpsH_heap_extends (ops : List LTOp) :
    ∀ s : List DataFrame × LTRef, ∃ ext, (runOpsH s ops).1 = s.1 ++ ext := by
  induction ops with
  | nil => exact fun s => ⟨[], (List.append_nil _).symm⟩
  | cons op ops ih =>
      intro s
      obtain ⟨e₁, he₁⟩ := stepH_heap_extends s op
      obtain ⟨e₂, he₂⟩ := ih (stepH s op)
      exact ⟨e₁ ++ e₂, by rw [runOpsH, List.foldl_cons, ← runOpsH, he₂, he₁,
        List.append_assoc]⟩

/-! ### Claim C9 -/

/-- C9: constructing a `LinearityTest` (or `Multiplot`) takes a private copy
of the caller's dataframe (`self.df = df.copy()`), so the construction-time
in-place column rename and every subsequent public operation leave the
caller's dataframe object — its column names and values — unchanged. -/
theorem construction_copy_preserves_caller_df (h : List DataFrame)
    (caller nCols : Nat) (ops : List LTOp) (hc : caller < h.length) :
    heapGet ((runOpsH (linearityTestConstructH h caller nCols) ops).1) caller =
      heapGet h caller := by
  obtain ⟨ext, hext⟩ := runOpsH_heap_extends ops (linearityTestConstructH h caller nCols)
  rw [hext]
  show heapGet
    ((fixColNamesH (h ++ [heapGet h caller]) (multiplotConstructH h caller nCols).2) ++ ext)
    caller = heapGet h caller
  rw [heapGet_append _ ext caller
      (by rw [fixColNamesH, List.length_set, List.length_append]; omega),
    fixColNamesH, heapGet_set_ne _ _ _ _ (by simp [multiplotConstructH]; omega),
    heapGet_append _ _ caller hc]

/-- C9 witness: a two-dataframe heap whose first frame has a column name
with a space; constructing the instance on it and running a drop, a
`set_cols` and a logistic diagnostic leaves the caller's frame intact. -/
theorem construction_copy_preserves_caller_df_witness :
    0 < ([⟨["a b"], [[1]]⟩, ⟨["q"], []⟩] : List DataFrame).length ∧
    heapGet ((runOpsH (linearityTestConstructH [⟨["a b"], [[1]]⟩, ⟨["q"], []⟩] 0 3)
        [LTOp.modifyColList ["a b"] true, LTOp.setCols 2,
         LTOp.sbLinearityTest "a b" "y" true]).1) 0 =
      heapGet [⟨["a b"], [[1]]⟩, ⟨["q"], []⟩] 0 :=
  ⟨by decide,
   construction_copy_preserves_caller_df [⟨["a b"], [[1]]⟩, ⟨["q"], []⟩] 0 3
     [LTOp.modifyColList ["a b"] true, LTOp.setCols 2,
      LTOp.sbLinearityTest "a b" "y" true] (by decide)⟩

end VizFns
